import Mathlib

/-!
Shallow embedding of the PICO analysis utilities of the trial-compass-insight
repository (`picoAnalysis` module) together with the endpoint classifier of its
`trial-detail` edge function, and proofs of the frozen claims about them.

The JavaScript/TypeScript source operates on strings (lower-casing, substring
search, a few `\b...\b` regular-expression word tests) and on small counting
loops over trial lists.  Strings are embedded as Lean `String`s viewed as lists
of characters; each imperative counting loop is translated variable by variable
into an equivalent pure count/fold over the same trial list.
-/

namespace TrialCompass

/-- ASCII lower-casing, the behaviour of JavaScript `String.toLowerCase` on the
ASCII texts this program matches against. -/
def jsToLower (s : String) : String :=
  ⟨s.data.map Char.toLower⟩

/-- `needle.isPrefixOf hay` style substring search on character lists:
true iff `needle` occurs contiguously inside `hay`. -/
def hasSub : List Char → List Char → Bool
  | [], needle => needle.isEmpty
  | hay@(_ :: rest), needle => needle.isPrefixOf hay || hasSub rest needle

/-- JavaScript `s.includes(sub)`. -/
def jsIncludes (s sub : String) : Bool :=
  hasSub s.data sub.data

/-- JavaScript regular-expression word characters `[A-Za-z0-9_]`. -/
def jsWordChar (c : Char) : Bool :=
  (('a' ≤ c && c ≤ 'z') || ('A' ≤ c && c ≤ 'Z') || ('0' ≤ c && c ≤ '9') || c = '_')

/-- One position of the `\bw\b` test: `w` occurs right here, with a word
boundary on each side (`prev` is the character just before this position). -/
def wordBoundaryHere (prev : Option Char) (w rest : List Char) : Bool :=
  (match prev with | none => true | some c => !jsWordChar c) &&
  w.isPrefixOf rest &&
  (match rest.drop w.length with | [] => true | c :: _ => !jsWordChar c)

/-- Scan of the `\bw\b` test over the remaining text. -/
def wordTestAux (w : List Char) : Option Char → List Char → Bool
  | prev, s =>
    wordBoundaryHere prev w s ||
      match s with
      | [] => false
      | c :: cs => wordTestAux w (some c) cs

/-- JavaScript `/\bw\b/.test(s)` for a word `w` made of word characters. -/
def jsWordTest (s w : String) : Bool :=
  wordTestAux w.data none s.data

-- ============= DATA MODEL (from src/src/lib/api.ts) =============

/-- An arm of a trial (`Arm` in api.ts).  `interventions` is never read by the
analysed code and is omitted; `isControl` and `controlType` are optional in the
interface (`none` is JavaScript `undefined`, and an absent `isControl` behaves
as `false` in every use, so it is embedded as `Bool`). -/
structure Arm where
  label : String
  type : String
  description : String
  isControl : Bool
  controlType : Option String
deriving DecidableEq, Repr

/-- An outcome measure (`Outcome` in api.ts); `timeFrame` and `description`
are never read by the analysed code and are omitted. -/
structure Outcome where
  measure : String
  classification : Option String
deriving DecidableEq, Repr

/-- A trial (`Trial` in api.ts), restricted to the fields read by the PICO
analysis.  The optional lists `arms`, `primaryOutcomes`, `secondaryOutcomes`
are embedded as plain lists: the code reads them only as `trial.arms || []`
etc., so `undefined` is indistinguishable from `[]`. -/
structure Trial where
  phase : String
  arms : List Arm
  primaryOutcomes : List Outcome
  secondaryOutcomes : List Outcome
deriving DecidableEq, Repr

-- ============= THRESHOLDS (picoAnalysis) =============

def THRESHOLD_PREDOMINANT : ℚ := mkRat 1 2

def THRESHOLD_RELEVANT : ℚ := mkRat 1 5

def THRESHOLD_CONSISTENCY_HIGH : ℚ := mkRat 3 4

def THRESHOLD_CONSISTENCY_MODERATE : ℚ := mkRat 2 5

-- ============= COMPARATOR ANALYSIS (picoAnalysis) =============

/-- The comparator types of the `ComparatorType` union (`'add-on'` is written
`addOn`). -/
inductive ComparatorType where
  | placebo | soc | active | addOn | no_intervention | unknown
deriving DecidableEq, Repr, Fintype

/-- `normalizeControlType` of picoAnalysis.  Its only call site passes
`arm.controlType || arm.type`, a string, so the JavaScript falsy guard
`if (!controlType)` is the empty-string test here. -/
def normalizeControlType (controlType : String) : ComparatorType :=
  if controlType.isEmpty then .unknown else
  let lower := jsToLower controlType
  if jsIncludes lower "placebo" || jsIncludes lower "sham" then .placebo
  else if jsIncludes lower "standard" || jsIncludes lower "soc" || jsIncludes lower "best supportive" ||
      jsIncludes lower "usual care" || jsIncludes lower "routine care" || jsIncludes lower "best available" ||
      jsIncludes lower "investigator's choice" || jsIncludes lower "physician's choice" ||
      jsIncludes lower "current standard" then .soc
  else if jsIncludes lower "active" || jsIncludes lower "comparator drug" || jsIncludes lower "active comparator" ||
      jsIncludes lower "active control" then .active
  else if jsIncludes lower "add-on" || jsIncludes lower "addon" || jsIncludes lower "adjunct" then .addOn
  else if jsIncludes lower "no intervention" || jsIncludes lower "none" || jsIncludes lower "no_intervention" then .no_intervention
  else .unknown

/-- The add-on text patterns of `detectAddOnDesign`. -/
def addOnPatterns : List String :=
  ["add-on", "addon", "plus", "+ ", "in combination", "added to",
   "on top of", "adjunct", "background therapy", "plus standard",
   "combination with", "concomitant", "combined with", "together with",
   "in addition to", "supplemented with", "co-administered", "coadministered",
   "backbone", "base therapy", "underlying therapy"]

/-- `detectAddOnDesign` of picoAnalysis. -/
def detectAddOnDesign (arm : Arm) : Bool :=
  let desc := jsToLower arm.description
  let label := jsToLower arm.label
  let text := desc ++ " " ++ label
  addOnPatterns.any (fun pattern => jsIncludes text pattern)

/-- `normalizePhase` of picoAnalysis (the falsy guard is the empty-string
test, since `Trial.phase` is a required string field). -/
def normalizePhase (phase : String) : String :=
  if phase.isEmpty then "unknown" else
  let lower := jsToLower phase
  if jsIncludes lower "1" && jsIncludes lower "2" then "Phase 1/2"
  else if jsIncludes lower "2" && jsIncludes lower "3" then "Phase 2/3"
  else if jsIncludes lower "1" then "Phase 1"
  else if jsIncludes lower "2" then "Phase 2"
  else if jsIncludes lower "3" then "Phase 3"
  else if jsIncludes lower "4" then "Phase 4"
  else "unknown"

/-- The control-arm guard of the arm loop in `analyzeComparators`:
`arm.isControl || arm.type?.toLowerCase().includes('comparator') || ...`. -/
def isControlArm (arm : Arm) : Bool :=
  arm.isControl || jsIncludes (jsToLower arm.type) "comparator" ||
    jsIncludes (jsToLower arm.type) "control" ||
    jsIncludes (jsToLower arm.type) "placebo"

/-- The argument `arm.controlType || arm.type` passed to
`normalizeControlType` (JavaScript `||`: an absent or empty `controlType`
falls back to `type`). -/
def controlTypeArg (arm : Arm) : String :=
  match arm.controlType with
  | some s => if s.isEmpty then arm.type else s
  | none => arm.type

/-- `trialComparatorTypes` of the trial loop in `analyzeComparators`: the
classified types of the trial's control-like arms, in arm order. -/
def trialComparatorTypes (t : Trial) : List ComparatorType :=
  t.arms.filterMap (fun arm =>
    if isControlArm arm then some (normalizeControlType (controlTypeArg arm)) else none)

/-- `trialHasAddOn` of the trial loop: some arm matches an add-on pattern. -/
def trialHasAddOn (t : Trial) : Bool :=
  t.arms.any detectAddOnDesign

/-- The `priorityOrder` list of `analyzeComparators`. -/
def priorityOrder : List ComparatorType :=
  [.active, .soc, .placebo, .addOn, .no_intervention, .unknown]

/-- `priorityOrder.find(type => trialComparatorTypes.includes(type)) || 'unknown'`:
the trial's single representative comparator type. -/
def primaryComparatorOf (types : List ComparatorType) : ComparatorType :=
  (priorityOrder.find? (fun ty => types.contains ty)).getD .unknown

/-- The trials that contribute to `comparatorCounts` and `comparatorByPhase`:
those with at least one classified control-like arm
(`trialComparatorTypes.length > 0`). -/
def classifiedTrials (trials : List Trial) : List Trial :=
  trials.filter (fun t => !(trialComparatorTypes t).isEmpty)

/-- The `comparatorCounts` record: how many trials have the given
representative comparator type. -/
def comparatorCounts (trials : List Trial) (ty : ComparatorType) : Nat :=
  ((classifiedTrials trials).map (fun t => primaryComparatorOf (trialComparatorTypes t))).count ty

/-- The `trialsWithAddOn` counter. -/
def trialsWithAddOn (trials : List Trial) : Nat :=
  trials.countP (fun t => trialHasAddOn t)

/-- The `trialsWithActiveComparator` counter (incremented once per control
arm that classifies as `active`, across all trials). -/
def trialsWithActiveComparator (trials : List Trial) : Nat :=
  (trials.map (fun t => (trialComparatorTypes t).count .active)).sum

/-- Order-preserving removal of duplicates (first occurrence kept), the key
order of a JavaScript object built by repeated insertion, and the elements of
a JavaScript `Set` built from a list. -/
def dedupFirstAux [BEq α] (seen : List α) : List α → List α
  | [] => []
  | x :: xs => if seen.contains x then dedupFirstAux seen xs else x :: dedupFirstAux (x :: seen) xs

/-- Distinct elements of a list, in order of first occurrence. -/
def dedupFirst [BEq α] (l : List α) : List α :=
  dedupFirstAux [] l

/-- The keys of `comparatorByPhase`, in insertion order (a phase is inserted
when the first classified trial of that phase is processed). -/
def phasesList (trials : List Trial) : List String :=
  dedupFirst ((classifiedTrials trials).map (fun t => normalizePhase t.phase))

/-- `comparatorByPhase[p]`: representative types of the classified trials of
phase `p`, in trial order. -/
def phaseTypes (trials : List Trial) (p : String) : List ComparatorType :=
  ((classifiedTrials trials).filter (fun t => normalizePhase t.phase == p)).map
    (fun t => primaryComparatorOf (trialComparatorTypes t))

/-- The most common element of a list: its `typeCounts` object is built in
first-occurrence key order and stably sorted by descending count, so the
winner is the first-occurring element of maximal count. -/
def modalOf [BEq α] (l : List α) : Option α :=
  match dedupFirst l with
  | [] => none
  | k :: ks => some (ks.foldl (fun best k2 => if l.count k2 > l.count best then k2 else best) k)

-- ============= COMPARATOR ANALYSIS RESULT =============

/-- The value space of `ComparatorAnalysis.predominantComparator`. -/
inductive PredominantComparator where
  | placebo | soc | active | addOn | mixed | not_evaluable
deriving DecidableEq, Repr

/-- The value space of `ComparatorAnalysis.addOnDesigns`. -/
inductive AddOnDesigns where
  | not_present | minority | relevant | predominant | not_evaluable
deriving DecidableEq, Repr

/-- The value space of `ComparatorAnalysis.phaseConsistency`. -/
inductive PhaseConsistency where
  | consistent | changes | not_evaluable
deriving DecidableEq, Repr

/-- The `ComparatorAnalysis` result record (picoAnalysis).  The nullable
boolean `hasDirectActiveComparator` is an `Option Bool`. -/
structure ComparatorAnalysis where
  predominantComparator : PredominantComparator
  hasDirectActiveComparator : Option Bool
  addOnDesigns : AddOnDesigns
  phaseConsistency : PhaseConsistency
  structuralNote : String
deriving DecidableEq, Repr

/-- `validTotal` of `analyzeComparators`: all comparator counts except
`unknown`. -/
def validTotal (trials : List Trial) : Nat :=
  comparatorCounts trials .placebo + comparatorCounts trials .soc +
    comparatorCounts trials .active + comparatorCounts trials .addOn +
    comparatorCounts trials .no_intervention

/-- `maxCount` of `analyzeComparators`: `Math.max` over the placebo, soc,
active and add-on counts only. -/
def maxCount (trials : List Trial) : Nat :=
  max (comparatorCounts trials .placebo)
    (max (comparatorCounts trials .soc)
      (max (comparatorCounts trials .active) (comparatorCounts trials .addOn)))

/-- The `predominantComparator` computation of `analyzeComparators`.  The
fall-through of the inner `if` chain keeps the initial `'not_evaluable'`
value, exactly as in the source. -/
def predominantComparatorOf (trials : List Trial) : PredominantComparator :=
  if validTotal trials > 0 then
    if mkRat (maxCount trials) (validTotal trials) > THRESHOLD_PREDOMINANT then
      if maxCount trials = comparatorCounts trials .placebo then .placebo
      else if maxCount trials = comparatorCounts trials .soc then .soc
      else if maxCount trials = comparatorCounts trials .active then .active
      else if maxCount trials = comparatorCounts trials .addOn then .addOn
      else .not_evaluable
    else .mixed
  else .not_evaluable

/-- The `addOnDesigns` computation of `analyzeComparators`. -/
def addOnDesignsOf (trials : List Trial) : AddOnDesigns :=
  if trials.length > 0 then
    let addOnProportion : ℚ := mkRat (trialsWithAddOn trials) trials.length
    if addOnProportion = 0 then .not_present
    else if addOnProportion < THRESHOLD_RELEVANT then .minority
    else if addOnProportion ≤ THRESHOLD_PREDOMINANT then .relevant
    else .predominant
  else .not_evaluable

/-- The `phaseConsistency` computation of `analyzeComparators`: for several
phases, the set of per-phase most common types must be a singleton. -/
def phaseConsistencyOf (trials : List Trial) : PhaseConsistency :=
  let phases := phasesList trials
  if phases.length > 1 then
    let phaseComparatorTypes := phases.filterMap (fun p => modalOf (phaseTypes trials p))
    if (dedupFirst phaseComparatorTypes).length = 1 then .consistent else .changes
  else if phases.length = 1 then .consistent
  else .not_evaluable

/-- `generateComparatorNote` of picoAnalysis (its `totalTrials` parameter is
unused in the source as well). -/
def generateComparatorNote (predominant : PredominantComparator) (hasActive : Bool)
    (addOn : AddOnDesigns) (_totalTrials : Nat) : String :=
  if predominant = .not_evaluable then "No evaluable con los datos disponibles." else
  let parts₁ : List String :=
    match predominant with
    | .placebo => ["La evidencia se apoya mayoritariamente en comparaciones frente a placebo"]
    | .soc => ["La evidencia se basa principalmente en comparaciones frente a tratamiento estándar"]
    | .active => ["Los ensayos incluyen comparadores activos directos"]
    | .addOn => ["Los diseños add-on sobre terapia base son predominantes"]
    | .mixed => ["La evidencia presenta heterogeneidad en los comparadores utilizados"]
    | .not_evaluable => []
  let parts₂ :=
    if addOn = .relevant || addOn = .minority then
      parts₁ ++ [", con presencia limitada de diseños add-on"]
    else if addOn = .predominant then parts₁ ++ [", mayoritariamente en diseño add-on"]
    else parts₁
  let parts₃ :=
    if hasActive && predominant ≠ .active then
      parts₂ ++ [". Existen comparaciones activas directas en parte de la evidencia"]
    else parts₂
  String.join parts₃ ++ "."

/-- `analyzeComparators` of picoAnalysis. -/
def analyzeComparators (trials : List Trial) : ComparatorAnalysis :=
  if trials.isEmpty then
    { predominantComparator := .not_evaluable
      hasDirectActiveComparator := none
      addOnDesigns := .not_evaluable
      phaseConsistency := .not_evaluable
      structuralNote := "No evaluable con los datos disponibles." }
  else
    { predominantComparator := predominantComparatorOf trials
      hasDirectActiveComparator := some (trialsWithActiveComparator trials > 0)
      addOnDesigns := addOnDesignsOf trials
      phaseConsistency := phaseConsistencyOf trials
      structuralNote := generateComparatorNote (predominantComparatorOf trials)
        (trialsWithActiveComparator trials > 0) (addOnDesignsOf trials) trials.length }

-- ============= ENDPOINT ANALYSIS (picoAnalysis) =============

/-- ASCII upper-casing, the behaviour of JavaScript `String.toUpperCase` on
the ASCII classification codes this program matches against. -/
def jsToUpper (s : String) : String :=
  ⟨s.data.map Char.toUpper⟩

/-- The endpoint types of the `EndpointType` union (`'PK/PD'` is written
`PKPD`). -/
inductive EndpointType where
  | OS | PFS | DFS | EFS | RFS | TTP | TTF | ORR | CR | pCR | CBR | DCR | DOR | MRD
  | PRO | safety | biomarker | PKPD | other
deriving DecidableEq, Repr

/-- `HARD_CLINICAL_ENDPOINTS` of picoAnalysis. -/
def HARD_CLINICAL_ENDPOINTS : List EndpointType := [.OS]

/-- `SURROGATE_ENDPOINTS` of picoAnalysis. -/
def SURROGATE_ENDPOINTS : List EndpointType :=
  [.PFS, .DFS, .EFS, .RFS, .TTP, .TTF, .ORR, .CR, .pCR, .CBR, .DCR, .DOR, .MRD]

/-- `classifyEndpoint` of picoAnalysis: maps an outcome's `classification`
code to an endpoint type (the JavaScript falsy guard covers `undefined` and
the empty string). -/
def classifyEndpoint (classification : Option String) : EndpointType :=
  match classification with
  | none => .other
  | some s =>
    if s.isEmpty then .other else
    let upper := jsToUpper s
    if upper = "OS" then .OS
    else if upper = "PFS" then .PFS
    else if upper = "DFS" then .DFS
    else if upper = "EFS" then .EFS
    else if upper = "RFS" then .RFS
    else if upper = "TTP" then .TTP
    else if upper = "TTF" then .TTF
    else if upper = "ORR" then .ORR
    else if upper = "CR" then .CR
    else if upper = "PCR" then .pCR
    else if upper = "CBR" then .CBR
    else if upper = "DCR" then .DCR
    else if upper = "DOR" then .DOR
    else if upper = "MRD" then .MRD
    else if jsIncludes upper "QOL" || jsIncludes upper "PRO" then .PRO
    else if upper = "SAFETY" then .safety
    else if upper = "BIOMARKER" then .biomarker
    else if upper = "PK/PD" then .PKPD
    else if upper = "RESOURCE USE" then .other
    else .other

/-- `trialPrimaryTypes` of the trial loop in `analyzeEndpoints`: classified
primary outcomes of one trial, in outcome order. -/
def trialPrimaryTypes (t : Trial) : List EndpointType :=
  t.primaryOutcomes.map (fun o => classifyEndpoint o.classification)

/-- The `primaryEndpointCounts` record: occurrences of the given type among
all primary outcomes of all trials. -/
def primaryEndpointCounts (trials : List Trial) (ty : EndpointType) : Nat :=
  ((trials.map trialPrimaryTypes).flatten).count ty

/-- `trialHasHardPrimary` of the trial loop. -/
def trialHasHardPrimary (t : Trial) : Bool :=
  (trialPrimaryTypes t).any (fun ty => HARD_CLINICAL_ENDPOINTS.contains ty)

/-- `trialHasSurrogatePrimary` of the trial loop. -/
def trialHasSurrogatePrimary (t : Trial) : Bool :=
  (trialPrimaryTypes t).any (fun ty => SURROGATE_ENDPOINTS.contains ty)

/-- `trialHasPROPrimary` of the trial loop. -/
def trialHasPROPrimary (t : Trial) : Bool :=
  (trialPrimaryTypes t).any (fun ty => ty = .PRO)

/-- The secondary-outcome loop of `analyzeEndpoints`, which `break`s at the
first surrogate secondary outcome: returns (a surrogate secondary outcome was
found, a PRO secondary outcome was seen before the break). -/
def scanSecondaryOutcomes : List Outcome → Bool × Bool
  | [] => (false, false)
  | o :: rest =>
    let ty := classifyEndpoint o.classification
    if SURROGATE_ENDPOINTS.contains ty then (true, false)
    else
      let r := scanSecondaryOutcomes rest
      (r.1, r.2 || decide (ty = .PRO))

/-- A trial increments `trialsWithSurrogateSecondary` iff its secondary-outcome
loop found a surrogate before exhausting the list. -/
def trialHasSurrogateSecondary (t : Trial) : Bool :=
  (scanSecondaryOutcomes t.secondaryOutcomes).1

/-- `trialHasPRO` of the trial loop: a PRO primary outcome, or a PRO secondary
outcome seen before the loop's `break`. -/
def trialHasPRO (t : Trial) : Bool :=
  trialHasPROPrimary t || (scanSecondaryOutcomes t.secondaryOutcomes).2

/-- The `trialsWithHardPrimary` counter. -/
def trialsWithHardPrimary (trials : List Trial) : Nat :=
  trials.countP (fun t => trialHasHardPrimary t)

/-- The `trialsWithSurrogatePrimary` counter. -/
def trialsWithSurrogatePrimary (trials : List Trial) : Nat :=
  trials.countP (fun t => trialHasSurrogatePrimary t)

/-- The `trialsWithSurrogateSecondary` counter (at most once per trial, because
of the `break`). -/
def trialsWithSurrogateSecondary (trials : List Trial) : Nat :=
  trials.countP (fun t => trialHasSurrogateSecondary t)

/-- The `trialsWithPRO` counter. -/
def trialsWithPRO (trials : List Trial) : Nat :=
  trials.countP (fun t => trialHasPRO t)

/-- The `trialsWithPROAsPrimary` counter. -/
def trialsWithPROAsPrimary (trials : List Trial) : Nat :=
  trials.countP (fun t => trialHasPROPrimary t)

/-- `totalPrimaryEndpoints`: the sum of all values of the
`primaryEndpointCounts` record. -/
def totalPrimaryEndpoints (trials : List Trial) : Nat :=
  primaryEndpointCounts trials .OS + primaryEndpointCounts trials .PFS +
  primaryEndpointCounts trials .DFS + primaryEndpointCounts trials .EFS +
  primaryEndpointCounts trials .RFS + primaryEndpointCounts trials .TTP +
  primaryEndpointCounts trials .TTF + primaryEndpointCounts trials .ORR +
  primaryEndpointCounts trials .CR + primaryEndpointCounts trials .pCR +
  primaryEndpointCounts trials .CBR + primaryEndpointCounts trials .DCR +
  primaryEndpointCounts trials .DOR + primaryEndpointCounts trials .MRD +
  primaryEndpointCounts trials .PRO + primaryEndpointCounts trials .safety +
  primaryEndpointCounts trials .biomarker + primaryEndpointCounts trials .PKPD +
  primaryEndpointCounts trials .other

/-- The `groupedCounts.OS` entry. -/
def groupOS (trials : List Trial) : Nat := primaryEndpointCounts trials .OS

/-- The `groupedCounts.PFS` entry (PFS family). -/
def groupPFS (trials : List Trial) : Nat :=
  primaryEndpointCounts trials .PFS + primaryEndpointCounts trials .DFS +
  primaryEndpointCounts trials .EFS + primaryEndpointCounts trials .RFS +
  primaryEndpointCounts trials .TTP + primaryEndpointCounts trials .TTF

/-- The `groupedCounts.ORR` entry (response family). -/
def groupORR (trials : List Trial) : Nat :=
  primaryEndpointCounts trials .ORR + primaryEndpointCounts trials .CR +
  primaryEndpointCounts trials .pCR + primaryEndpointCounts trials .CBR +
  primaryEndpointCounts trials .DCR + primaryEndpointCounts trials .DOR +
  primaryEndpointCounts trials .MRD

/-- The `groupedCounts.PRO` entry. -/
def groupPRO (trials : List Trial) : Nat := primaryEndpointCounts trials .PRO

/-- The `groupedCounts.safety` entry. -/
def groupSafety (trials : List Trial) : Nat := primaryEndpointCounts trials .safety

/-- The `groupedCounts.other` entry. -/
def groupOther (trials : List Trial) : Nat :=
  primaryEndpointCounts trials .biomarker + primaryEndpointCounts trials .PKPD +
  primaryEndpointCounts trials .other

/-- `maxGroupCount`: `Math.max` over the six grouped counts. -/
def maxGroupCount (trials : List Trial) : Nat :=
  max (groupOS trials) (max (groupPFS trials) (max (groupORR trials)
    (max (groupPRO trials) (max (groupSafety trials) (groupOther trials)))))

-- ============= ENDPOINT ANALYSIS RESULT =============

/-- The value space of `EndpointAnalysis.dominantPrimaryEndpoint`. -/
inductive DominantPrimaryEndpoint where
  | OS | PFS | ORR | other_surrogate | PRO | safety | mixed | not_evaluable
deriving DecidableEq, Repr

/-- The value space of `EndpointAnalysis.surrogateUsage`. -/
inductive SurrogateUsage where
  | no | secondary | primary_predominant | not_evaluable
deriving DecidableEq, Repr

/-- The value space of `EndpointAnalysis.prosPresence`. -/
inductive ProsPresence where
  | not_present | secondary | relevant | not_evaluable
deriving DecidableEq, Repr

/-- The value space of `EndpointAnalysis.endpointConsistency`. -/
inductive EndpointConsistency where
  | high | moderate | low | not_evaluable
deriving DecidableEq, Repr

/-- The `EndpointAnalysis` result record (picoAnalysis). -/
structure EndpointAnalysis where
  dominantPrimaryEndpoint : DominantPrimaryEndpoint
  hasHardClinicalPrimary : Option Bool
  surrogateUsage : SurrogateUsage
  prosPresence : ProsPresence
  endpointConsistency : EndpointConsistency
  structuralNote : String
deriving DecidableEq, Repr

/-- The `dominantPrimaryEndpoint` computation of `analyzeEndpoints`:
`Object.entries(groupedCounts).find(([, count]) => count === maxGroupCount)`
scans the entries in literal order OS, PFS, ORR, PRO, safety, other, and the
final `else` of the mapping chain yields `other_surrogate`. -/
def dominantPrimaryEndpointOf (trials : List Trial) : DominantPrimaryEndpoint :=
  if totalPrimaryEndpoints trials > 0 then
    if mkRat (maxGroupCount trials) (totalPrimaryEndpoints trials) > THRESHOLD_PREDOMINANT then
      if groupOS trials = maxGroupCount trials then .OS
      else if groupPFS trials = maxGroupCount trials then .PFS
      else if groupORR trials = maxGroupCount trials then .ORR
      else if groupPRO trials = maxGroupCount trials then .PRO
      else if groupSafety trials = maxGroupCount trials then .safety
      else .other_surrogate
    else .mixed
  else .not_evaluable

/-- The `surrogateUsage` computation of `analyzeEndpoints`. -/
def surrogateUsageOf (trials : List Trial) : SurrogateUsage :=
  if trials.length > 0 then
    let surrogatePrimaryProportion : ℚ :=
      mkRat (trialsWithSurrogatePrimary trials) trials.length
    if surrogatePrimaryProportion > THRESHOLD_PREDOMINANT then .primary_predominant
    else if trialsWithSurrogateSecondary trials > 0 || trialsWithSurrogatePrimary trials > 0 then
      if surrogatePrimaryProportion > 0 then .primary_predominant else .secondary
    else .no
  else .not_evaluable

/-- The `prosPresence` computation of `analyzeEndpoints`. -/
def prosPresenceOf (trials : List Trial) : ProsPresence :=
  if trials.length > 0 then
    let proProportion : ℚ := mkRat (trialsWithPRO trials) trials.length
    if proProportion = 0 then .not_present
    else if trialsWithPROAsPrimary trials > 0 || proProportion ≥ THRESHOLD_RELEVANT then .relevant
    else .secondary
  else .not_evaluable

/-- `Math.max(...Object.values(counts))` for the count record of a list:
the largest multiplicity of an element. -/
def maxCountVal [BEq α] (l : List α) : Nat :=
  (dedupFirst l).foldl (fun m k => max m (l.count k)) 0

/-- The per-trial dominant primary type of the `endpointConsistency`
computation: `'other'` for a trial without primary outcomes, otherwise the
trial's most common primary type. -/
def trialDominantType (types : List EndpointType) : EndpointType :=
  if types.isEmpty then .other else (modalOf types).getD .other

/-- The `endpointConsistency` computation of `analyzeEndpoints`. -/
def endpointConsistencyOf (trials : List Trial) : EndpointConsistency :=
  let primaryEndpointsByTrial := trials.map trialPrimaryTypes
  if primaryEndpointsByTrial.length > 0 then
    let dominantTypes := primaryEndpointsByTrial.map trialDominantType
    let maxConsistency : ℚ :=
      mkRat (maxCountVal dominantTypes) primaryEndpointsByTrial.length
    if maxConsistency ≥ THRESHOLD_CONSISTENCY_HIGH then .high
    else if maxConsistency ≥ THRESHOLD_CONSISTENCY_MODERATE then .moderate
    else .low
  else .not_evaluable

/-- `generateEndpointNote` of picoAnalysis. -/
def generateEndpointNote (dominant : DominantPrimaryEndpoint) (hasHard : Bool)
    (surrogate : SurrogateUsage) (pros : ProsPresence) : String :=
  if dominant = .not_evaluable then "No evaluable con los datos disponibles." else
  let parts₁ : List String :=
    match dominant with
    | .OS => ["Los ensayos utilizan supervivencia global como variable primaria"]
    | .PFS => ["Los ensayos utilizan supervivencia libre de progresión como variable primaria"]
    | .ORR => ["La tasa de respuesta objetiva predomina como variable primaria"]
    | .PRO => ["Los resultados reportados por pacientes son el endpoint primario principal"]
    | .safety => ["Los ensayos se centran en endpoints de seguridad como variable primaria"]
    | .other_surrogate => ["Los ensayos utilizan mayoritariamente endpoints subrogados como variable primaria"]
    | .mixed => ["Existe heterogeneidad en los endpoints primarios utilizados"]
    | .not_evaluable => []
  let parts₂ :=
    if surrogate = .primary_predominant && dominant ≠ .OS then
      parts₁ ++ [", con predominio de endpoints subrogados"]
    else parts₁
  let parts₃ :=
    if hasHard && dominant ≠ .OS then
      parts₂ ++ [". Supervivencia global está presente en parte de la evidencia"]
    else parts₂
  let parts₄ :=
    if pros = .relevant && dominant ≠ .PRO then
      parts₃ ++ [". Los PROs tienen presencia relevante"]
    else if pros = .secondary then
      parts₃ ++ [". Los PROs aparecen como endpoints secundarios"]
    else parts₃
  String.join parts₄ ++ "."

/-- `analyzeEndpoints` of picoAnalysis. -/
def analyzeEndpoints (trials : List Trial) : EndpointAnalysis :=
  if trials.isEmpty then
    { dominantPrimaryEndpoint := .not_evaluable
      hasHardClinicalPrimary := none
      surrogateUsage := .not_evaluable
      prosPresence := .not_evaluable
      endpointConsistency := .not_evaluable
      structuralNote := "No evaluable con los datos disponibles." }
  else
    { dominantPrimaryEndpoint := dominantPrimaryEndpointOf trials
      hasHardClinicalPrimary := some (trialsWithHardPrimary trials > 0)
      surrogateUsage := surrogateUsageOf trials
      prosPresence := prosPresenceOf trials
      endpointConsistency := endpointConsistencyOf trials
      structuralNote := generateEndpointNote (dominantPrimaryEndpointOf trials)
        (trialsWithHardPrimary trials > 0) (surrogateUsageOf trials) (prosPresenceOf trials) }

-- ============= MAIN EXPORT (picoAnalysis) =============

/-- The `PicoAnalysis` result record. -/
structure PicoAnalysis where
  comparator : ComparatorAnalysis
  endpoint : EndpointAnalysis
  totalTrials : Nat
deriving DecidableEq, Repr

/-- `analyzePico` of picoAnalysis: a total function, so in particular the
call chain never throws. -/
def analyzePico (trials : List Trial) : PicoAnalysis :=
  { comparator := analyzeComparators trials
    endpoint := analyzeEndpoints trials
    totalTrials := trials.length }

/-- `analyzeSingleTrialPico` of picoAnalysis. -/
def analyzeSingleTrialPico (trial : Trial) : PicoAnalysis :=
  analyzePico [trial]

-- ============= ENDPOINT CLASSIFIER (trial-detail edge function) =============

namespace TrialDetail

/-- The `classifyEndpoint` arrow function of
`src/supabase/functions/trial-detail/index.ts`: classifies a raw outcome
measure text into an HTA-grade classification string.  Each `/\bw\b/.test(m)`
of the source is `jsWordTest m "w"` here. -/
def classifyEndpoint (measure : String) : String :=
  let m := jsToLower measure
  if jsIncludes m "overall survival" || m = "os" || jsWordTest m "os" then "OS"
  else if jsIncludes m "progression-free" || jsIncludes m "progression free" || jsWordTest m "pfs" then "PFS"
  else if jsIncludes m "disease-free" || jsIncludes m "disease free" || jsWordTest m "dfs" then "DFS"
  else if jsIncludes m "event-free" || jsIncludes m "event free" || jsWordTest m "efs" then "EFS"
  else if jsIncludes m "relapse-free" || jsIncludes m "relapse free" || jsIncludes m "recurrence-free" ||
      jsIncludes m "recurrence free" || jsWordTest m "rfs" then "RFS"
  else if jsIncludes m "objective response" || jsIncludes m "overall response rate" || jsWordTest m "orr" then "ORR"
  else if jsIncludes m "complete response" || jsIncludes m "complete remission" || jsWordTest m "cr" ||
      jsWordTest m "cri" then "CR"
  else if jsIncludes m "pathologic complete" || jsIncludes m "pathological complete" || jsWordTest m "pcr" then "pCR"
  else if jsIncludes m "clinical benefit" || jsWordTest m "cbr" then "CBR"
  else if jsIncludes m "disease control" || jsWordTest m "dcr" then "DCR"
  else if jsIncludes m "duration of response" || jsWordTest m "dor" then "DOR"
  else if jsIncludes m "time to progression" || jsWordTest m "ttp" then "TTP"
  else if jsIncludes m "time to treatment failure" || jsIncludes m "time to next treatment" ||
      jsWordTest m "ttf" || jsWordTest m "ttnt" then "TTF"
  else if jsIncludes m "time to" && !(jsIncludes m "time to progression") &&
      !(jsIncludes m "time to treatment") && !(jsIncludes m "time to next") then "TTP"
  else if jsIncludes m "minimal residual" || jsIncludes m "measurable residual" || jsWordTest m "mrd" then "MRD"
  else if jsIncludes m "quality of life" || jsIncludes m "qol" || jsIncludes m "hrqol" ||
      jsIncludes m "patient reported" || jsIncludes m "patient-reported" || jsWordTest m "pro" ||
      jsIncludes m "eortc" || jsIncludes m "qlq" || jsIncludes m "fact-" || jsIncludes m "eq-5d" ||
      jsIncludes m "eq5d" || jsIncludes m "sf-36" || jsIncludes m "sf36" || jsIncludes m "sf-12" ||
      jsIncludes m "promis" || jsIncludes m "euroqol" || jsIncludes m "bpi" || jsIncludes m "brief pain" ||
      jsIncludes m "mdasi" || jsIncludes m "fisi" || jsIncludes m "symptom burden" ||
      jsIncludes m "health utility" || jsIncludes m "global health status" then "QoL/PRO"
  else if jsIncludes m "adverse event" || jsIncludes m "safety" || jsIncludes m "toxicity" ||
      jsIncludes m "tolerability" || jsIncludes m "side effect" || jsIncludes m "dose limiting" ||
      jsIncludes m "dose-limiting" || jsIncludes m "maximum tolerated" || jsIncludes m "mtd" ||
      jsIncludes m "teae" || jsIncludes m "treatment-emergent" || jsIncludes m "treatment emergent" ||
      jsIncludes m "incidence of" || jsIncludes m "aesi" then "Safety"
  else if jsIncludes m "biomarker" || jsIncludes m "marker level" || jsIncludes m "expression" ||
      jsIncludes m "ctdna" || jsIncludes m "circulating tumor" || jsIncludes m "pd-l1" ||
      jsIncludes m "her2" || jsIncludes m "egfr" || jsIncludes m "alk" || jsIncludes m "braf" ||
      jsIncludes m "tmb" || jsIncludes m "tumor mutational" || jsIncludes m "microsatellite" then "Biomarker"
  else if jsIncludes m "pharmacokinetic" || jsIncludes m "pharmacodynamic" || jsWordTest m "pk" ||
      jsWordTest m "pd" || jsIncludes m "auc" || jsIncludes m "cmax" || jsIncludes m "trough" ||
      jsIncludes m "clearance" || jsIncludes m "half-life" || jsIncludes m "bioavailability" then "PK/PD"
  else if jsIncludes m "cost" || jsIncludes m "resource" || jsIncludes m "hospitalization" ||
      jsIncludes m "hospitalisation" || jsIncludes m "healthcare utilization" ||
      jsIncludes m "healthcare utilisation" || jsIncludes m "length of stay" ||
      jsIncludes m "readmission" || jsIncludes m "emergency department" || jsIncludes m "icu" ||
      jsIncludes m "qaly" || jsIncludes m "icer" || jsIncludes m "cost-effectiveness" then "Resource Use"
  else "Other"

end TrialDetail

-- ============= SPECIFICATION-SIDE DEFINITIONS =============

/-- The `surrogateUsage` rule exactly as the specification words it, for
comparison with the code's computation: `p` is the fraction of trials with a
surrogate primary endpoint; `p > 0.50` gives primary_predominant; otherwise,
if any trial has a surrogate primary or surrogate secondary endpoint, the
result is primary_predominant when `p > 0` and secondary when `p = 0`;
otherwise no. -/
def surrogateUsageSpec (trials : List Trial) : SurrogateUsage :=
  let p : ℚ := mkRat (trials.countP (fun t => trialHasSurrogatePrimary t)) trials.length
  if p > mkRat 1 2 then .primary_predominant
  else if trials.any (fun t => trialHasSurrogatePrimary t || trialHasSurrogateSecondary t) then
    if p > 0 then .primary_predominant else .secondary
  else .no

/-- The `dominantPrimaryEndpoint` rule exactly as the specification words it:
zero primary outcomes give not_evaluable; a super-category whose share of all
primary outcomes is strictly greater than 0.50 is dominant (at most one
super-category can have such a share, so testing the six categories in turn
is the same as taking the largest); otherwise mixed. -/
def dominantPrimaryEndpointSpec (trials : List Trial) : DominantPrimaryEndpoint :=
  if totalPrimaryEndpoints trials = 0 then .not_evaluable
  else if mkRat (groupOS trials) (totalPrimaryEndpoints trials) > mkRat 1 2 then .OS
  else if mkRat (groupPFS trials) (totalPrimaryEndpoints trials) > mkRat 1 2 then .PFS
  else if mkRat (groupORR trials) (totalPrimaryEndpoints trials) > mkRat 1 2 then .ORR
  else if mkRat (groupPRO trials) (totalPrimaryEndpoints trials) > mkRat 1 2 then .PRO
  else if mkRat (groupSafety trials) (totalPrimaryEndpoints trials) > mkRat 1 2 then .safety
  else if mkRat (groupOther trials) (totalPrimaryEndpoints trials) > mkRat 1 2 then .other_surrogate
  else .mixed

/-- The representative-type rule exactly as the specification words it: the
first element of the priority order `[active, soc, placebo, add-on,
no_intervention, unknown]` that occurs among the trial's classified arm types
(for a non-empty all-`unknown` list the first five tests fail and the answer
is `unknown`). -/
def representativeSpec (types : List ComparatorType) : ComparatorType :=
  if types.contains .active then .active
  else if types.contains .soc then .soc
  else if types.contains .placebo then .placebo
  else if types.contains .addOn then .addOn
  else if types.contains .no_intervention then .no_intervention
  else .unknown

/-- The `addOnPrevalence` bucketing exactly as the specification words it:
`f = 0` gives not_present, `0 < f < 0.20` minority, `0.20 ≤ f ≤ 0.50`
relevant, `f > 0.50` predominant. -/
def addOnBucketSpec (f : ℚ) : AddOnDesigns :=
  if f = 0 then .not_present
  else if 0 < f ∧ f < mkRat 1 5 then .minority
  else if mkRat 1 5 ≤ f ∧ f ≤ mkRat 1 2 then .relevant
  else .predominant

-- ============= CONCRETE FIXTURE TRIALS =============

/-- A trial whose sole primary outcome classifies as OS. -/
def trialWithOSPrimary : Trial :=
  ⟨"3", [], [⟨"Overall Survival", some "OS"⟩], []⟩

/-- A trial whose sole primary outcome classifies as PFS (a surrogate). -/
def trialWithPFSPrimary : Trial :=
  ⟨"3", [], [⟨"Progression-Free Survival", some "PFS"⟩], []⟩

/-- A trial with no arms and no outcomes. -/
def trialNoOutcomes : Trial :=
  ⟨"", [], [], []⟩

/-- An arm that classifies as a placebo control. -/
def placeboControlArm : Arm :=
  ⟨"Placebo", "Placebo Comparator", "", false, none⟩

/-- An arm that classifies as an active-comparator control. -/
def activeControlArm : Arm :=
  ⟨"Drug B", "Active Comparator", "", false, none⟩

/-- A control-like arm whose hint classifies as `unknown`. -/
def unknownControlArm : Arm :=
  ⟨"Control", "Control", "", false, none⟩

/-- A trial with a single placebo control arm. -/
def trialPlaceboControl : Trial :=
  ⟨"3", [placeboControlArm], [], []⟩

/-- A trial with a single active-comparator control arm. -/
def trialActiveControl : Trial :=
  ⟨"3", [activeControlArm], [], []⟩

/-- A trial with both a placebo arm and an active-comparator arm. -/
def trialPlaceboAndActive : Trial :=
  ⟨"3", [placeboControlArm, activeControlArm], [], []⟩

/-- A trial whose only control-like arm classifies as `unknown`. -/
def trialUnknownControl : Trial :=
  ⟨"2", [unknownControlArm], [], []⟩

/-- A trial with an add-on experimental arm (matches the `plus` pattern). -/
def trialAddOnArm : Trial :=
  ⟨"3", [⟨"Drug A plus SOC", "Experimental", "", false, none⟩], [], []⟩

-- ============= HELPER LEMMAS =============

/-- Comparison of two explicit fractions reduces to an integer inequality. -/
theorem mkRat_lt_mkRat_iff {a c : ℤ} {b d : ℕ} (hb : 0 < b) (hd : 0 < d) :
    mkRat a b < mkRat c d ↔ a * d < c * b := by
  rw [Rat.mkRat_eq_div, Rat.mkRat_eq_div,
    div_lt_div_iff₀ (by exact_mod_cast hb) (by exact_mod_cast hd)]
  exact_mod_cast Iff.rfl

/-- Weak comparison of two explicit fractions reduces to an integer
inequality. -/
theorem mkRat_le_mkRat_iff {a c : ℤ} {b d : ℕ} (hb : 0 < b) (hd : 0 < d) :
    mkRat a b ≤ mkRat c d ↔ a * d ≤ c * b := by
  rw [Rat.mkRat_eq_div, Rat.mkRat_eq_div,
    div_le_div_iff₀ (by exact_mod_cast hb) (by exact_mod_cast hd)]
  exact_mod_cast Iff.rfl

/-- A fraction with natural numerator and positive denominator is positive iff
its numerator is. -/
theorem mkRat_pos_iff {a b : ℕ} (hb : 0 < b) : 0 < mkRat (a : ℤ) b ↔ 0 < a := by
  rw [show (0 : ℚ) = mkRat 0 1 by simp, mkRat_lt_mkRat_iff one_pos hb]
  omega

/-- A fraction with natural numerator and positive denominator vanishes iff
its numerator does. -/
theorem mkRat_eq_zero_iff {a b : ℕ} (hb : 0 < b) : mkRat (a : ℤ) b = 0 ↔ a = 0 := by
  rw [Rat.mkRat_eq_zero (by omega)]
  omega

-- ============= CLAIM C4 =============

/-- C4 counterexample: the claim says the classifier resolves the hint
"active comparator (standard of care)" to `active`; the code checks the
standard-of-care patterns (which match the substring "standard") before the
active-comparator patterns, so the hint does not resolve to `active`. -/
theorem C4_counterexample :
    normalizeControlType "active comparator (standard of care)" ≠ .active := by
  decide

/-- C4 (amended): the ordered first-match rule of `normalizeControlType`
checks placebo, then standard-of-care, then active patterns, so the hint
string "active comparator (standard of care)" resolves to `soc`
(standard of care), not to `active`. -/
theorem C4_precedence_soc_over_active :
    normalizeControlType "active comparator (standard of care)" = .soc := by
  decide

-- ============= CLAIM C6 =============

/-- C6: `analyzePico []` (a total function, so no exception is possible)
returns `totalTrials = 0`, every enum field of both analyses at its
`not_evaluable` variant, and both nullable booleans null. -/
theorem C6_analyzePico_empty :
    (analyzePico []).totalTrials = 0 ∧
    (analyzePico []).comparator.predominantComparator = .not_evaluable ∧
    (analyzePico []).comparator.addOnDesigns = .not_evaluable ∧
    (analyzePico []).comparator.phaseConsistency = .not_evaluable ∧
    (analyzePico []).comparator.hasDirectActiveComparator = none ∧
    (analyzePico []).endpoint.dominantPrimaryEndpoint = .not_evaluable ∧
    (analyzePico []).endpoint.surrogateUsage = .not_evaluable ∧
    (analyzePico []).endpoint.prosPresence = .not_evaluable ∧
    (analyzePico []).endpoint.endpointConsistency = .not_evaluable ∧
    (analyzePico []).endpoint.hasHardClinicalPrimary = none := by
  decide

-- ============= CLAIM C9 =============

/-- C9: the trial-detail endpoint classifier satisfies all five
classification fixtures of the specification. -/
theorem C9_classifyEndpoint_fixtures :
    TrialDetail.classifyEndpoint "Overall Survival (OS)" = "OS" ∧
    TrialDetail.classifyEndpoint "Progression-Free Survival" = "PFS" ∧
    TrialDetail.classifyEndpoint "EORTC QLQ-C30 score" = "QoL/PRO" ∧
    TrialDetail.classifyEndpoint "Incidence of Grade 3+ AEs" = "Safety" ∧
    TrialDetail.classifyEndpoint "Random free-text endpoint" = "Other" :=
  ⟨by decide, by decide, by decide, by decide, by decide⟩

-- ============= LIST LEMMAS =============

/-- Scanning elements all already seen produces nothing. -/
theorem dedupFirstAux_all_seen {α} [DecidableEq α] :
    ∀ (l seen : List α), (∀ y ∈ l, y ∈ seen) → dedupFirstAux seen l = []
  | [], _, _ => rfl
  | x :: xs, seen, h => by
    have hx : seen.contains x = true := by
      simpa using h x (by simp)
    rw [dedupFirstAux, if_pos hx]
    exact dedupFirstAux_all_seen xs seen (fun y hy => h y (by simp [hy]))

/-- A non-empty list whose elements are all equal dedupes to a singleton. -/
theorem dedupFirst_all_eq {α} [DecidableEq α] (x : α) (l : List α) (hne : l ≠ [])
    (hall : ∀ y ∈ l, y = x) : dedupFirst l = [x] := by
  cases l with
  | nil => exact absurd rfl hne
  | cons a as =>
    have hax : a = x := hall a (by simp)
    subst hax
    show dedupFirstAux [] (a :: as) = [a]
    rw [dedupFirstAux, if_neg (by simp)]
    have : dedupFirstAux [a] as = [] :=
      dedupFirstAux_all_seen as [a] (fun y hy => by simp [hall y (by simp [hy])])
    rw [this]

/-- Deduplication of a non-empty list is non-empty. -/
theorem dedupFirst_ne_nil {α} [DecidableEq α] (l : List α) (hne : l ≠ []) :
    dedupFirst l ≠ [] := by
  cases l with
  | nil => exact absurd rfl hne
  | cons x xs =>
    show dedupFirstAux [] (x :: xs) ≠ []
    rw [dedupFirstAux, if_neg (by simp)]
    simp

/-- Every element surviving deduplication came from the list. -/
theorem dedupFirstAux_subset {α} [DecidableEq α] :
    ∀ (l seen : List α) (y : α), y ∈ dedupFirstAux seen l → y ∈ l
  | [], _, y, h => by simp [dedupFirstAux] at h
  | x :: xs, seen, y, h => by
    rw [dedupFirstAux] at h
    by_cases hc : seen.contains x = true
    · rw [if_pos hc] at h
      exact List.mem_cons_of_mem _ (dedupFirstAux_subset xs seen y h)
    · rw [if_neg hc] at h
      rcases List.mem_cons.mp h with rfl | h2
      · exact List.mem_cons_self _ _
      · exact List.mem_cons_of_mem _ (dedupFirstAux_subset xs _ y h2)

/-- The most common element of a non-empty list whose elements are all equal. -/
theorem modalOf_all_eq {α} [DecidableEq α] (x : α) (l : List α) (hne : l ≠ [])
    (hall : ∀ y ∈ l, y = x) : modalOf l = some x := by
  unfold modalOf
  rw [dedupFirst_all_eq x l hne hall]
  rfl

/-- The largest multiplicity within a non-empty list of equal elements is the
full length. -/
theorem maxCountVal_all_eq {α} [DecidableEq α] (x : α) (l : List α) (hne : l ≠ [])
    (hall : ∀ y ∈ l, y = x) : maxCountVal l = l.length := by
  unfold maxCountVal
  rw [dedupFirst_all_eq x l hne hall]
  have hc : l.count x = l.length := List.count_eq_length.mpr (fun b hb => by simp [hall b hb])
  simp [hc]

/-- A filterMap whose function is constantly `some c` on the list is a map. -/
theorem filterMap_all_some {β γ} (f : β → Option γ) (c : γ) :
    ∀ (l : List β), (∀ p ∈ l, f p = some c) → l.filterMap f = l.map (fun _ => c)
  | [], _ => rfl
  | x :: xs, h => by
    rw [List.filterMap_cons, h x (by simp), List.map_cons]
    rw [filterMap_all_some f c xs (fun p hp => h p (by simp [hp]))]

-- ============= CLAIM C1 =============

/-- Helper for C1: on every non-empty trial list the code's `surrogateUsage`
equals the specification's rule. -/
theorem C1_general (trials : List Trial) (hne : trials ≠ []) :
    (analyzeEndpoints trials).surrogateUsage = surrogateUsageSpec trials := by
  have hempty : trials.isEmpty = false := by simp [List.isEmpty_iff, hne]
  have hlen : 0 < trials.length := List.length_pos.mpr hne
  rw [analyzeEndpoints, if_neg (by simp [hempty])]
  show surrogateUsageOf trials = _
  unfold surrogateUsageOf surrogateUsageSpec trialsWithSurrogatePrimary trialsWithSurrogateSecondary
  rw [if_pos (by simpa using hlen)]
  simp only [THRESHOLD_PREDOMINANT]
  have hiff : ((List.countP (fun t => trialHasSurrogateSecondary t) trials > 0 ||
        List.countP (fun t => trialHasSurrogatePrimary t) trials > 0) = true) ↔
      (trials.any (fun t => trialHasSurrogatePrimary t || trialHasSurrogateSecondary t) = true) := by
    simp only [Bool.or_eq_true, decide_eq_true_eq, List.countP_pos_iff, List.any_eq_true]
    constructor
    · rintro (⟨t, ht, h⟩ | ⟨t, ht, h⟩)
      · exact ⟨t, ht, Or.inr h⟩
      · exact ⟨t, ht, Or.inl h⟩
    · rintro ⟨t, ht, h | h⟩
      · exact Or.inr ⟨t, ht, h⟩
      · exact Or.inl ⟨t, ht, h⟩
  by_cases hp : mkRat (↑(List.countP (fun t => trialHasSurrogatePrimary t) trials)) trials.length > mkRat 1 2
  · rw [if_pos hp, if_pos hp]
  · rw [if_neg hp, if_neg hp]
    by_cases hmid : trials.any (fun t => trialHasSurrogatePrimary t || trialHasSurrogateSecondary t) = true
    · rw [if_pos (hiff.mpr hmid), if_pos hmid]
    · rw [if_neg (fun hcc => hmid (hiff.mp hcc)), if_neg hmid]

/-- C1: on every non-empty trial list, `surrogateUsage` follows the stated
rule (`p > 0.50` gives primary_predominant; otherwise any surrogate primary or
secondary endpoint gives primary_predominant when `p > 0` and secondary when
`p = 0`; otherwise no); in particular a single surrogate-primary trial among
three (`p = 1/3 ≤ 0.50`, `p > 0`) yields primary_predominant. -/
theorem C1_surrogateUsage_rule :
    (∀ trials : List Trial, trials ≠ [] →
      (analyzeEndpoints trials).surrogateUsage = surrogateUsageSpec trials) ∧
    (analyzeEndpoints [trialWithPFSPrimary, trialWithOSPrimary, trialWithOSPrimary]).surrogateUsage =
      .primary_predominant :=
  ⟨C1_general, by decide⟩

/-- C1 witness: the rule instantiated at a concrete three-trial list. -/
theorem C1_witness :
    (([trialWithPFSPrimary, trialWithOSPrimary, trialWithOSPrimary] : List Trial) ≠ []) ∧
    (analyzeEndpoints [trialWithPFSPrimary, trialWithOSPrimary, trialWithOSPrimary]).surrogateUsage =
      surrogateUsageSpec [trialWithPFSPrimary, trialWithOSPrimary, trialWithOSPrimary] :=
  ⟨by decide, C1_surrogateUsage_rule.1 _ (by decide)⟩

-- ============= CLAIM C2 =============

/-- Helper for C2: when no comparator type other than `unknown` reaches a
count strictly above half of the valid total, the result is mixed. -/
theorem C2_general (trials : List Trial) (hv : 0 < validTotal trials)
    (hbound : ∀ ty : ComparatorType, ty ≠ .unknown →
      2 * comparatorCounts trials ty ≤ validTotal trials) :
    (analyzeComparators trials).predominantComparator = .mixed := by
  have hne : trials ≠ [] := by
    intro h
    subst h
    exact absurd hv (by decide)
  have hempty : trials.isEmpty = false := by simp [List.isEmpty_iff, hne]
  rw [analyzeComparators, if_neg (by simp [hempty])]
  show predominantComparatorOf trials = .mixed
  unfold predominantComparatorOf
  rw [if_pos hv, if_neg]
  have h1 := hbound .placebo (by decide)
  have h2 := hbound .soc (by decide)
  have h3 := hbound .active (by decide)
  have h4 := hbound .addOn (by decide)
  have hmax : maxCount trials = max (comparatorCounts trials .placebo)
      (max (comparatorCounts trials .soc)
        (max (comparatorCounts trials .active) (comparatorCounts trials .addOn))) := rfl
  intro hc
  rw [gt_iff_lt, THRESHOLD_PREDOMINANT, mkRat_lt_mkRat_iff (by norm_num) hv] at hc
  omega

/-- C2: whenever no single non-`unknown` comparator type exceeds half of the
valid total, `predominantComparator` is mixed; in particular a 50/50
placebo/active two-trial split yields mixed, not placebo and not
active. -/
theorem C2_predominantComparator_tie_mixed :
    (∀ trials : List Trial, 0 < validTotal trials →
      (∀ ty : ComparatorType, ty ≠ .unknown →
        2 * comparatorCounts trials ty ≤ validTotal trials) →
      (analyzeComparators trials).predominantComparator = .mixed) ∧
    (analyzeComparators [trialPlaceboControl, trialActiveControl]).predominantComparator = .mixed :=
  ⟨C2_general, by decide⟩

/-- C2 witness: the tie rule instantiated at the concrete 50/50 split. -/
theorem C2_witness :
    0 < validTotal [trialPlaceboControl, trialActiveControl] ∧
    (analyzeComparators [trialPlaceboControl, trialActiveControl]).predominantComparator = .mixed :=
  ⟨by decide, C2_predominantComparator_tie_mixed.1 _ (by decide) (by decide)⟩

-- ============= CLAIM C3 =============

/-- Helper for C3: the six-way grouped dominance chain of the code equals the
specification's per-category strict-majority chain. -/
theorem dominant_chain_eq (a b c d e f T : ℕ) (hsum : T = a + b + c + d + e + f) (hT : 0 < T) :
    (if mkRat (↑(max a (max b (max c (max d (max e f)))))) T > mkRat 1 2 then
      (if a = max a (max b (max c (max d (max e f)))) then DominantPrimaryEndpoint.OS
       else if b = max a (max b (max c (max d (max e f)))) then DominantPrimaryEndpoint.PFS
       else if c = max a (max b (max c (max d (max e f)))) then DominantPrimaryEndpoint.ORR
       else if d = max a (max b (max c (max d (max e f)))) then DominantPrimaryEndpoint.PRO
       else if e = max a (max b (max c (max d (max e f)))) then DominantPrimaryEndpoint.safety
       else DominantPrimaryEndpoint.other_surrogate)
     else DominantPrimaryEndpoint.mixed) =
    (if mkRat (a : ℤ) T > mkRat 1 2 then DominantPrimaryEndpoint.OS
     else if mkRat (b : ℤ) T > mkRat 1 2 then DominantPrimaryEndpoint.PFS
     else if mkRat (c : ℤ) T > mkRat 1 2 then DominantPrimaryEndpoint.ORR
     else if mkRat (d : ℤ) T > mkRat 1 2 then DominantPrimaryEndpoint.PRO
     else if mkRat (e : ℤ) T > mkRat 1 2 then DominantPrimaryEndpoint.safety
     else if mkRat (f : ℤ) T > mkRat 1 2 then DominantPrimaryEndpoint.other_surrogate
     else DominantPrimaryEndpoint.mixed) := by
  have key : ∀ x : ℕ, (mkRat (x : ℤ) T > mkRat 1 2) ↔ T < 2 * x := by
    intro x
    rw [gt_iff_lt, mkRat_lt_mkRat_iff (by norm_num) hT]
    omega
  set M := max a (max b (max c (max d (max e f)))) with hM
  by_cases hMT : T < 2 * M
  · rw [if_pos ((key M).mpr hMT)]
    by_cases hA : a = M
    · rw [if_pos hA, if_pos ((key a).mpr (by omega))]
    · rw [if_neg hA, if_neg (show ¬(mkRat (a : ℤ) T > mkRat 1 2) by rw [key]; omega)]
      by_cases hB : b = M
      · rw [if_pos hB, if_pos ((key b).mpr (by omega))]
      · rw [if_neg hB, if_neg (show ¬(mkRat (b : ℤ) T > mkRat 1 2) by rw [key]; omega)]
        by_cases hC : c = M
        · rw [if_pos hC, if_pos ((key c).mpr (by omega))]
        · rw [if_neg hC, if_neg (show ¬(mkRat (c : ℤ) T > mkRat 1 2) by rw [key]; omega)]
          by_cases hD : d = M
          · rw [if_pos hD, if_pos ((key d).mpr (by omega))]
          · rw [if_neg hD, if_neg (show ¬(mkRat (d : ℤ) T > mkRat 1 2) by rw [key]; omega)]
            by_cases hE : e = M
            · rw [if_pos hE, if_pos ((key e).mpr (by omega))]
            · rw [if_neg hE, if_neg (show ¬(mkRat (e : ℤ) T > mkRat 1 2) by rw [key]; omega)]
              rw [if_pos ((key f).mpr (by omega))]
  · rw [if_neg (show ¬(mkRat (↑M) T > mkRat 1 2) by rw [key]; omega),
      if_neg (show ¬(mkRat (a : ℤ) T > mkRat 1 2) by rw [key]; omega),
      if_neg (show ¬(mkRat (b : ℤ) T > mkRat 1 2) by rw [key]; omega),
      if_neg (show ¬(mkRat (c : ℤ) T > mkRat 1 2) by rw [key]; omega),
      if_neg (show ¬(mkRat (d : ℤ) T > mkRat 1 2) by rw [key]; omega),
      if_neg (show ¬(mkRat (e : ℤ) T > mkRat 1 2) by rw [key]; omega),
      if_neg (show ¬(mkRat (f : ℤ) T > mkRat 1 2) by rw [key]; omega)]

/-- The total number of primary outcomes is the sum of the six
super-categories: the grouping partitions all nineteen endpoint types. -/
theorem total_eq_sum_groups (trials : List Trial) :
    totalPrimaryEndpoints trials = groupOS trials + groupPFS trials + groupORR trials +
      groupPRO trials + groupSafety trials + groupOther trials := by
  unfold totalPrimaryEndpoints groupOS groupPFS groupORR groupPRO groupSafety groupOther
  ring

/-- Helper for C3: on every non-empty trial list the code's
`dominantPrimaryEndpoint` equals the specification's rule. -/
theorem C3_general (trials : List Trial) (hne : trials ≠ []) :
    (analyzeEndpoints trials).dominantPrimaryEndpoint = dominantPrimaryEndpointSpec trials := by
  have hempty : trials.isEmpty = false := by simp [List.isEmpty_iff, hne]
  rw [analyzeEndpoints, if_neg (by simp [hempty])]
  show dominantPrimaryEndpointOf trials = dominantPrimaryEndpointSpec trials
  unfold dominantPrimaryEndpointOf dominantPrimaryEndpointSpec
  by_cases hT : totalPrimaryEndpoints trials = 0
  · rw [if_neg (by omega), if_pos hT]
  · rw [if_pos (by omega), if_neg hT]
    exact dominant_chain_eq (groupOS trials) (groupPFS trials) (groupORR trials)
      (groupPRO trials) (groupSafety trials) (groupOther trials)
      (totalPrimaryEndpoints trials) (total_eq_sum_groups trials) (by omega)

/-- C3: `dominantPrimaryEndpoint` follows the grouped strict-majority rule
(zero primary outcomes give not_evaluable, a super-category is dominant only
with share strictly above 0.50, otherwise mixed); in particular three trials
each with OS as sole primary outcome yield OS dominance, a hard clinical
primary, and no surrogate usage. -/
theorem C3_dominantPrimaryEndpoint_rule :
    (∀ trials : List Trial, trials ≠ [] →
      (analyzeEndpoints trials).dominantPrimaryEndpoint = dominantPrimaryEndpointSpec trials) ∧
    ((analyzeEndpoints [trialWithOSPrimary, trialWithOSPrimary, trialWithOSPrimary]).dominantPrimaryEndpoint = .OS ∧
     (analyzeEndpoints [trialWithOSPrimary, trialWithOSPrimary, trialWithOSPrimary]).hasHardClinicalPrimary = some true ∧
     (analyzeEndpoints [trialWithOSPrimary, trialWithOSPrimary, trialWithOSPrimary]).surrogateUsage = .no) :=
  ⟨C3_general, by decide, by decide, by decide⟩

/-- C3 witness: the dominance rule instantiated at the three-OS-trial list. -/
theorem C3_witness :
    (([trialWithOSPrimary, trialWithOSPrimary, trialWithOSPrimary] : List Trial) ≠ []) ∧
    (analyzeEndpoints [trialWithOSPrimary, trialWithOSPrimary, trialWithOSPrimary]).dominantPrimaryEndpoint =
      dominantPrimaryEndpointSpec [trialWithOSPrimary, trialWithOSPrimary, trialWithOSPrimary] :=
  ⟨by decide, C3_dominantPrimaryEndpoint_rule.1 _ (by decide)⟩

-- ============= CLAIM C5 =============

/-- C5 counterexample: a non-empty trial list in which no trial has any
primary outcome, yet `endpointConsistency` is `high`, not `not_evaluable`
(each trial's dominant primary type defaults to `other`). -/
theorem C5_counterexample :
    (([trialNoOutcomes] : List Trial) ≠ []) ∧
    (∀ t ∈ ([trialNoOutcomes] : List Trial), t.primaryOutcomes = []) ∧
    (analyzeEndpoints [trialNoOutcomes]).endpointConsistency ≠ .not_evaluable :=
  ⟨by decide, by decide, by decide⟩

/-- C5 (amended): on a non-empty trial list in which every trial's
primary-outcome list is empty, every trial's dominant type defaults to
`other`, so `endpointConsistency` is `high` (consistency 1.0);
`not_evaluable` occurs only for the empty trial list. -/
theorem C5_no_primary_outcomes_high (trials : List Trial) (hne : trials ≠ [])
    (hout : ∀ t ∈ trials, t.primaryOutcomes = []) :
    (analyzeEndpoints trials).endpointConsistency = .high := by
  have hempty : trials.isEmpty = false := by simp [List.isEmpty_iff, hne]
  have hlen : 0 < trials.length := List.length_pos.mpr hne
  rw [analyzeEndpoints, if_neg (by simp [hempty])]
  show endpointConsistencyOf trials = .high
  unfold endpointConsistencyOf
  rw [if_pos (by simpa using hlen)]
  have hdom : ∀ y ∈ (trials.map trialPrimaryTypes).map trialDominantType, y = EndpointType.other := by
    intro y hy
    simp only [List.mem_map] at hy
    obtain ⟨types, ⟨t, ht, rfl⟩, rfl⟩ := hy
    simp [trialDominantType, trialPrimaryTypes, hout t ht]
  have hne2 : (trials.map trialPrimaryTypes).map trialDominantType ≠ [] := by simp [hne]
  simp only [maxCountVal_all_eq .other _ hne2 hdom, List.length_map]
  rw [if_pos]
  rw [ge_iff_le, THRESHOLD_CONSISTENCY_HIGH, mkRat_le_mkRat_iff (by norm_num) hlen]
  omega

/-- C5 witness: the amended rule instantiated at a one-trial list without
primary outcomes. -/
theorem C5_witness :
    (([trialNoOutcomes] : List Trial) ≠ []) ∧
    (∀ t ∈ ([trialNoOutcomes] : List Trial), t.primaryOutcomes = []) ∧
    (analyzeEndpoints [trialNoOutcomes]).endpointConsistency = .high :=
  ⟨by decide, by decide, C5_no_primary_outcomes_high [trialNoOutcomes] (by decide) (by decide)⟩

-- ============= CLAIM C7 =============

/-- Helper for C7: the code's find-over-priority-order pick always equals the
specification's first-present chain. -/
theorem primaryComparatorOf_eq_representativeSpec (types : List ComparatorType) :
    primaryComparatorOf types = representativeSpec types := by
  unfold primaryComparatorOf representativeSpec priorityOrder
  by_cases h1 : ComparatorType.active ∈ types <;>
  by_cases h2 : ComparatorType.soc ∈ types <;>
  by_cases h3 : ComparatorType.placebo ∈ types <;>
  by_cases h4 : ComparatorType.addOn ∈ types <;>
  by_cases h5 : ComparatorType.no_intervention ∈ types <;>
  by_cases h6 : ComparatorType.unknown ∈ types <;>
  simp [List.find?, h1, h2, h3, h4, h5, h6]

/-- Helper for C7: a classified-type list containing `active` is attributed to
`active`. -/
theorem representative_active_of_mem (types : List ComparatorType)
    (ha : ComparatorType.active ∈ types) : primaryComparatorOf types = .active := by
  rw [primaryComparatorOf_eq_representativeSpec]
  unfold representativeSpec
  rw [if_pos (by simpa using ha)]

/-- C7: for every trial with at least one classified control-like arm, the
representative comparator type is the first element of
`[active, soc, placebo, add-on, no_intervention, unknown]` present among its
classified arm types; in particular a trial with both a placebo arm and an
active-comparator arm is attributed to `active`. -/
theorem C7_representative_priority :
    (∀ t : Trial, trialComparatorTypes t ≠ [] →
      primaryComparatorOf (trialComparatorTypes t) = representativeSpec (trialComparatorTypes t)) ∧
    (∀ t : Trial, ComparatorType.placebo ∈ trialComparatorTypes t →
      ComparatorType.active ∈ trialComparatorTypes t →
      primaryComparatorOf (trialComparatorTypes t) = .active) :=
  ⟨fun _t _ => primaryComparatorOf_eq_representativeSpec _,
   fun _t _ ha => representative_active_of_mem _ ha⟩

/-- C7 witness: the priority rule instantiated at a trial with a placebo and
an active-comparator arm. -/
theorem C7_witness :
    (trialComparatorTypes trialPlaceboAndActive ≠ [] ∧
     primaryComparatorOf (trialComparatorTypes trialPlaceboAndActive) =
       representativeSpec (trialComparatorTypes trialPlaceboAndActive)) ∧
    (ComparatorType.placebo ∈ trialComparatorTypes trialPlaceboAndActive ∧
     ComparatorType.active ∈ trialComparatorTypes trialPlaceboAndActive ∧
     primaryComparatorOf (trialComparatorTypes trialPlaceboAndActive) = .active) :=
  ⟨⟨by decide, C7_representative_priority.1 _ (by decide)⟩,
   ⟨by decide, by decide, C7_representative_priority.2 _ (by decide) (by decide)⟩⟩

-- ============= CLAIM C8 =============

/-- Helper for C8: a non-negative fraction routed through the code's bucket
chain lands in the specification's bucket. -/
theorem addOnBucket_eq (f : ℚ) (hnn : 0 ≤ f) :
    (if f = 0 then AddOnDesigns.not_present
     else if f < mkRat 1 5 then .minority
     else if f ≤ mkRat 1 2 then .relevant
     else .predominant) = addOnBucketSpec f := by
  unfold addOnBucketSpec
  by_cases hf0 : f = 0
  · simp [hf0]
  · have hpos : 0 < f := lt_of_le_of_ne hnn (Ne.symm hf0)
    rw [if_neg hf0, if_neg hf0]
    by_cases h5 : f < mkRat 1 5
    · rw [if_pos h5, if_pos ⟨hpos, h5⟩]
    · rw [if_neg h5, if_neg (show ¬(0 < f ∧ f < mkRat 1 5) by tauto)]
      by_cases h2 : f ≤ mkRat 1 2
      · rw [if_pos h2, if_pos ⟨le_of_not_lt h5, h2⟩]
      · rw [if_neg h2, if_neg (show ¬(mkRat 1 5 ≤ f ∧ f ≤ mkRat 1 2) by tauto)]

/-- A fraction of two naturals is non-negative. -/
theorem mkRat_nat_nonneg (a b : ℕ) : 0 ≤ mkRat (a : ℤ) b := by
  rw [Rat.mkRat_eq_div]
  positivity

/-- Helper for C8: on every non-empty trial list the code's `addOnDesigns`
equals the specification's bucket of the add-on fraction. -/
theorem C8_general (trials : List Trial) (hne : trials ≠ []) :
    (analyzeComparators trials).addOnDesigns =
      addOnBucketSpec (mkRat (trialsWithAddOn trials) trials.length) := by
  have hempty : trials.isEmpty = false := by simp [List.isEmpty_iff, hne]
  have hlen : 0 < trials.length := List.length_pos.mpr hne
  rw [analyzeComparators, if_neg (by simp [hempty])]
  show addOnDesignsOf trials = _
  unfold addOnDesignsOf
  rw [if_pos (by simpa using hlen)]
  exact addOnBucket_eq _ (mkRat_nat_nonneg _ _)

/-- C8: `addOnDesigns` buckets the add-on fraction exactly as specified; the
boundary fractions 1/5 (one add-on trial of five) and 1/2 (one of two) both
map to relevant, and one of six maps to minority. -/
theorem C8_addOnPrevalence_buckets :
    (∀ trials : List Trial, trials ≠ [] →
      (analyzeComparators trials).addOnDesigns =
        addOnBucketSpec (mkRat (trialsWithAddOn trials) trials.length)) ∧
    (analyzeComparators [trialAddOnArm, trialNoOutcomes, trialNoOutcomes, trialNoOutcomes,
      trialNoOutcomes]).addOnDesigns = .relevant ∧
    (analyzeComparators [trialAddOnArm, trialNoOutcomes]).addOnDesigns = .relevant :=
  ⟨C8_general, by decide, by decide⟩

/-- C8 witness: the bucket rule instantiated at the concrete 1/2 boundary. -/
theorem C8_witness :
    (([trialAddOnArm, trialNoOutcomes] : List Trial) ≠ []) ∧
    (analyzeComparators [trialAddOnArm, trialNoOutcomes]).addOnDesigns =
      addOnBucketSpec (mkRat (trialsWithAddOn [trialAddOnArm, trialNoOutcomes])
        ([trialAddOnArm, trialNoOutcomes] : List Trial).length) :=
  ⟨by decide, C8_addOnPrevalence_buckets.1 _ (by decide)⟩

-- ============= CLAIM C10 =============

/-- C10: when at least one arm is control-like but every classified
control-like arm is `unknown`, `predominantComparator` is not_evaluable (the
valid total excludes `unknown`) while `phaseConsistency` is `consistent`
(every phase's modal type is `unknown`). -/
theorem C10_unknown_controls (trials : List Trial)
    (hex : ∃ t ∈ trials, trialComparatorTypes t ≠ [])
    (hunk : ∀ t ∈ trials, ∀ ty ∈ trialComparatorTypes t, ty = ComparatorType.unknown) :
    (analyzeComparators trials).predominantComparator = .not_evaluable ∧
    (analyzeComparators trials).phaseConsistency = .consistent := by
  obtain ⟨t0, ht0, ht0ne⟩ := hex
  have hne : trials ≠ [] := by
    rintro rfl
    simp at ht0
  have hempty : trials.isEmpty = false := by simp [List.isEmpty_iff, hne]
  have hrep : ∀ t ∈ classifiedTrials trials,
      primaryComparatorOf (trialComparatorTypes t) = ComparatorType.unknown := by
    intro t ht
    have hmem : t ∈ trials := (List.mem_filter.mp ht).1
    have hall : ∀ ty ∈ trialComparatorTypes t, ty = ComparatorType.unknown := hunk t hmem
    have hnc : ∀ x : ComparatorType, x ≠ ComparatorType.unknown →
        ¬((trialComparatorTypes t).contains x = true) := by
      intro x hx hcc
      have : x ∈ trialComparatorTypes t := by simpa using hcc
      exact hx (hall x this)
    rw [primaryComparatorOf_eq_representativeSpec]
    unfold representativeSpec
    rw [if_neg (hnc _ (by decide)), if_neg (hnc _ (by decide)), if_neg (hnc _ (by decide)),
      if_neg (hnc _ (by decide)), if_neg (hnc _ (by decide))]
  have hcount : ∀ ty : ComparatorType, ty ≠ ComparatorType.unknown →
      comparatorCounts trials ty = 0 := by
    intro ty hty
    unfold comparatorCounts
    rw [List.count_eq_zero]
    intro hmem
    simp only [List.mem_map] at hmem
    obtain ⟨t, ht, hrt⟩ := hmem
    exact hty (by rw [← hrt, hrep t ht])
  have hvalid : validTotal trials = 0 := by
    unfold validTotal
    rw [hcount .placebo (by decide), hcount .soc (by decide), hcount .active (by decide),
      hcount .addOn (by decide), hcount .no_intervention (by decide)]
  constructor
  · rw [analyzeComparators, if_neg (by simp [hempty])]
    show predominantComparatorOf trials = _
    unfold predominantComparatorOf
    rw [if_neg (by omega)]
  · rw [analyzeComparators, if_neg (by simp [hempty])]
    show phaseConsistencyOf trials = _
    unfold phaseConsistencyOf
    have hct : t0 ∈ classifiedTrials trials :=
      List.mem_filter.mpr ⟨ht0, by simpa using ht0ne⟩
    have hctne : classifiedTrials trials ≠ [] := by
      intro h
      rw [h] at hct
      simp at hct
    have hphne : phasesList trials ≠ [] := by
      unfold phasesList
      exact dedupFirst_ne_nil _ (by simpa using hctne)
    have hmodal : ∀ p ∈ phasesList trials,
        modalOf (phaseTypes trials p) = some ComparatorType.unknown := by
      intro p hp
      have hpmem : p ∈ (classifiedTrials trials).map (fun t => normalizePhase t.phase) :=
        dedupFirstAux_subset _ _ _ hp
      simp only [List.mem_map] at hpmem
      obtain ⟨t, ht, hpt⟩ := hpmem
      apply modalOf_all_eq
      · unfold phaseTypes
        intro hcontra
        rw [List.map_eq_nil_iff, List.filter_eq_nil_iff] at hcontra
        exact hcontra t ht (by simp [hpt])
      · intro y hy
        unfold phaseTypes at hy
        simp only [List.mem_map, List.mem_filter] at hy
        obtain ⟨t2, ⟨ht2, _⟩, rfl⟩ := hy
        exact hrep t2 ht2
    rcases Nat.lt_or_ge 1 (phasesList trials).length with hgt | hle
    · rw [if_pos hgt]
      have hdedup : dedupFirst ((phasesList trials).filterMap
          (fun p => modalOf (phaseTypes trials p))) = [ComparatorType.unknown] := by
        rw [filterMap_all_some _ _ _ hmodal]
        exact dedupFirst_all_eq ComparatorType.unknown _ (by simpa using hphne)
          (fun y hy => by
            simp only [List.mem_map] at hy
            obtain ⟨p, hp, heq⟩ := hy
            exact heq.symm)
      simp only [hdedup]
      rfl
    · rw [if_neg (by omega)]
      have hlen1 : (phasesList trials).length = 1 := by
        have := List.length_pos.mpr hphne
        omega
      rw [if_pos hlen1]

/-- C10 witness: the unknown-controls behaviour instantiated at a one-trial
list with a single unclassifiable control arm. -/
theorem C10_witness :
    (∃ t ∈ ([trialUnknownControl] : List Trial), trialComparatorTypes t ≠ []) ∧
    ((analyzeComparators [trialUnknownControl]).predominantComparator = .not_evaluable ∧
     (analyzeComparators [trialUnknownControl]).phaseConsistency = .consistent) :=
  ⟨by decide, C10_unknown_controls [trialUnknownControl] (by decide) (by decide)⟩

end TrialCompass

